import Mathlib

/-!
Verification development for the claim-portal backend (src/backend).

The Python services are shallowly embedded as executable Lean functions:

* `models.py` enums and pydantic models become inductive types and structures;
  the pydantic `validate_notes` validator becomes an explicit boolean check
  that runs before the service call, as FastAPI parses the request body
  before the handler runs.
* The MongoDB collections are modelled as lists of documents, per the spec
  (section 1) which treats the document store as an external collaborator
  offering query-by-field (`find_one` = first match) and atomic update
  primitives (`update_one` = modify the first matching document: `$set`
  semantics for plain fields, `$push` appends to an array field).
* bcrypt hashing is modelled as an injective tagging function, and the JWT
  HMAC signature as a record of the signing secret: a signature verifies
  exactly when the verifying secret equals the signing secret.
* `datetime.now` values and generated uuids / claim numbers are passed in as
  explicit parameters (timestamps are `Nat` seconds).
* Python truthiness on `Optional[str]` / `Optional[int]` fields is embedded
  explicitly (`none` and `some ""` / `some 0` are falsy).
-/

namespace ClaimPortal

/-- The `UserRole` enum from models.py (values patient/hospital/insurer/admin). -/
inductive UserRole
  | patient
  | hospital
  | insurer
  | admin
  deriving DecidableEq, Repr

/-- The `ClaimStatus` enum from models.py. As a `str` enum its members compare
equal to their string values, so the string comparisons in auth.py are
embedded as comparisons on this type. -/
inductive ClaimStatus
  | submitted
  | in_review
  | under_investigation
  | approved
  | rejected
  | pending_documents
  | payment_processing
  | completed
  deriving DecidableEq, Repr

/-- Truthiness of a Python `Optional[str]`: `None` and `""` are falsy. -/
def strTruthy : Option String → Bool
  | none => false
  | some s => !s.isEmpty

/-! ## Credential service (auth.py) -/

/-- The `User` document (models.py `User`), restricted to the fields the
authentication and permission code reads or writes. -/
structure User where
  id : String
  email : String
  password_hash : String
  role : UserRole
  is_active : Bool
  failed_login_attempts : Nat
  last_login : Option Nat
  is_verified : Bool
  deriving DecidableEq, Repr

/-- Python `str.lower()` on email addresses, embedded character by
character (structural recursion, so it evaluates inside the kernel). -/
def lower_str (s : String) : String :=
  String.mk (s.data.map Char.toLower)

/-- bcrypt `pwd_context.hash` modelled as an injective tag; the behavioural
contract used by the code is only that `verify_password p (hash_password p)`
holds and that distinct passwords do not collide. -/
def hash_password (plain : String) : String :=
  "$2b$12$" ++ plain

/-- Embeds `AuthService.verify_password` (auth.py line 35): true iff the plain
password hashes to the stored hash. -/
def verify_password (plain hashed : String) : Bool :=
  hash_password plain == hashed

/-- Embeds `db.users.find_one` keyed by email: first user whose email field equals
`e`, if any. -/
def find_user (db : List User) (e : String) : Option User :=
  db.find? (fun u => u.email == e)

/-- Embeds `db.users.update_one` keyed by email: apply `f` to the first user
whose email equals `e`, leaving the rest of the collection unchanged. -/
def update_first_user (db : List User) (e : String) (f : User → User) : List User :=
  match db with
  | [] => []
  | u :: rest => if u.email == e then f u :: rest else u :: update_first_user rest e f

/-- Hard authentication errors raised by `authenticate_user`:
HTTP 423 (account locked) and HTTP 403 (account disabled). -/
inductive AuthError
  | accountLocked
  | forbidden
  deriving DecidableEq, Repr

/-- Embeds `AuthService.authenticate_user` (auth.py lines 85-128). Returns the
soft result (`none` = "no match") together with the users collection after
the call; the lockout check runs before the active check, which runs before
password verification. On a wrong password the failed-attempt counter of
the matched user is incremented; on success it is reset to 0 and
`last_login` is stamped with the current time. -/
def authenticate_user (db : List User) (email password : String) (now : Nat) :
    Except AuthError (Option User × List User) :=
  match find_user db (lower_str email) with
  | none => Except.ok (none, db)
  | some user =>
    if 5 ≤ user.failed_login_attempts then
      Except.error AuthError.accountLocked
    else if !user.is_active then
      Except.error AuthError.forbidden
    else if !verify_password password user.password_hash then
      Except.ok (none, update_first_user db (lower_str email)
        (fun u => { u with failed_login_attempts := u.failed_login_attempts + 1 }))
    else
      Except.ok (some user, update_first_user db (lower_str email)
        (fun u => { u with last_login := some now, failed_login_attempts := 0 }))

/-- The users collection as left by one `authenticate_user` call (a raised
error leaves the collection untouched). -/
def auth_step_db (db : List User) (email password : String) (now : Nat) : List User :=
  match authenticate_user db email password now with
  | Except.ok (_, db2) => db2
  | Except.error _ => db

/-- The users collection after a sequence of `authenticate_user` calls,
each given as (email, password, now). -/
def run_auth_calls (db : List User) (calls : List (String × String × Nat)) : List User :=
  calls.foldl (fun d c => auth_step_db d c.1 c.2.1 c.2.2) db

/-- The single-user collection after `n` login attempts for `u.email` with
password `pw` at time `now`, starting from `[u]`. -/
def wrong_attempts (u : User) (pw : String) (now : Nat) : Nat → List User
  | 0 => [u]
  | n + 1 => auth_step_db (wrong_attempts u pw now n) u.email pw now

/-! ## Token service (auth.py) -/

/-- Constant `ACCESS_TOKEN_EXPIRE_MINUTES = 30` (auth.py line 17), in seconds. -/
def access_token_expire_seconds : Nat := 30 * 60

/-- Constant `REFRESH_TOKEN_EXPIRE_DAYS = 7` (auth.py line 18), in seconds. -/
def refresh_token_expire_seconds : Nat := 7 * 24 * 60 * 60

/-- The JWT payload written by `create_access_token` / `create_refresh_token`:
the caller-supplied data `{sub, email, role}` (see the login endpoint in
server.py) plus the `exp` and `type` fields the service adds. -/
structure TokenPayload where
  sub : String
  email : String
  role : UserRole
  exp : Nat
  type : String
  deriving DecidableEq, Repr

/-- A signed JWT: the payload together with the secret it was signed with.
This models an unforgeable HMAC: verification with secret `s` succeeds
exactly when `s` equals the signing secret. -/
structure Jwt where
  payload : TokenPayload
  signedWith : String
  deriving DecidableEq, Repr

/-- Embeds `AuthService.create_access_token` (auth.py lines 39-44): copies the
data and adds `exp = now + 30 minutes` and `type = "access"`. -/
def create_access_token (sub email : String) (role : UserRole)
    (secret : String) (now : Nat) : Jwt :=
  { payload := { sub := sub, email := email, role := role,
                 exp := now + access_token_expire_seconds, type := "access" },
    signedWith := secret }

/-- Embeds `AuthService.create_refresh_token` (auth.py lines 46-51): copies the
data and adds `exp = now + 7 days` and `type = "refresh"`. -/
def create_refresh_token (sub email : String) (role : UserRole)
    (secret : String) (now : Nat) : Jwt :=
  { payload := { sub := sub, email := email, role := role,
                 exp := now + refresh_token_expire_seconds, type := "refresh" },
    signedWith := secret }

/-- The HTTP 401 failure modes of `verify_token`, by detail string:
"Invalid token type", "Token has expired", "Could not validate credentials". -/
inductive TokenError
  | invalidTokenType
  | tokenExpired
  | invalidCredentials
  deriving DecidableEq, Repr

/-- Embeds `jwt.decode` with the configured secret and algorithm: PyJWT rejects a bad
signature (`InvalidTokenError`) and, by default, an already-expired `exp`
claim (`ExpiredSignatureError`). -/
def jwt_decode (t : Jwt) (secret : String) (now : Nat) :
    Except TokenError TokenPayload :=
  if t.signedWith == secret then
    if t.payload.exp < now then Except.error TokenError.tokenExpired
    else Except.ok t.payload
  else Except.error TokenError.invalidCredentials

/-- Embeds `AuthService.verify_token` (auth.py lines 53-83): decode, then check the
`type` field against the expected token type, then re-check expiry
explicitly. -/
def verify_token (t : Jwt) (token_type : String) (secret : String) (now : Nat) :
    Except TokenError TokenPayload :=
  match jwt_decode t secret now with
  | Except.error e => Except.error e
  | Except.ok payload =>
    if payload.type != token_type then Except.error TokenError.invalidTokenType
    else if payload.exp < now then Except.error TokenError.tokenExpired
    else Except.ok payload

/-! ## Permission engine (auth.py lines 232-258) -/

/-- Embeds `can_view_claim` of auth.py taking the user, the claim patient id
and the optional insurer and hospital assignments (auth.py lines 232-242). The assignment fields
are optional; in Python a `None` assignment never equals a user id. -/
def can_view_claim (user : User) (claim_patient_id : String)
    (claim_assigned_insurer claim_assigned_hospital : Option String) : Bool :=
  if user.role = UserRole.admin then true
  else if user.role = UserRole.patient then user.id == claim_patient_id
  else if user.role = UserRole.insurer then claim_assigned_insurer == some user.id
  else if user.role = UserRole.hospital then claim_assigned_hospital == some user.id
  else false

/-- Embeds `can_update_claim_status(user, current_status)` (auth.py lines 245-258).
The Python parameter is the claim's stored status string; since `ClaimStatus`
is a `str` enum whose members equal their values, the membership tests on
string lists are embedded as membership on `ClaimStatus` lists. The target
status is not a parameter: the result can only depend on the current one. -/
def can_update_claim_status (user : User) (current_status : ClaimStatus) : Bool :=
  if user.role = UserRole.admin then true
  else if user.role = UserRole.hospital then
    current_status ∈ [ClaimStatus.submitted, ClaimStatus.pending_documents]
  else if user.role = UserRole.insurer then
    current_status ∈ [ClaimStatus.submitted, ClaimStatus.in_review,
      ClaimStatus.under_investigation, ClaimStatus.pending_documents]
  else if user.role = UserRole.patient then
    current_status = ClaimStatus.pending_documents
  else false

/-! ## Claim workflow engine (models.py, services.py `ClaimService`) -/

/-- Structure `ExtractedClaimData` (models.py lines 130-147); the monetary amount is
kept in cents to stay in exact arithmetic. -/
structure ExtractedClaimData where
  patient_name : String
  hospital_name : String
  doctor_name : String
  treatment_date : String
  claim_amount_cents : Int
  diagnosis : String
  treatment_type : String
  deriving DecidableEq, Repr

/-- Structure `ClaimDocumentInfo` (models.py lines 122-127). -/
structure ClaimDocumentInfo where
  file_name : String
  file_size : Nat
  file_type : String
  upload_path : String
  uploaded_at : Nat
  deriving DecidableEq, Repr

/-- Structure `ClaimStatusHistory` (models.py lines 172-177). -/
structure ClaimStatusHistory where
  status : ClaimStatus
  updated_by : String
  updated_by_role : UserRole
  updated_at : Nat
  notes : Option String
  deriving DecidableEq, Repr

/-- The `Claim` document (models.py lines 180-196). -/
structure Claim where
  id : String
  claim_number : String
  patient_id : String
  extracted_data : ExtractedClaimData
  documents : List ClaimDocumentInfo
  status : ClaimStatus
  status_history : List ClaimStatusHistory
  assigned_insurer : Option String
  assigned_hospital : Option String
  additional_notes : Option String
  emergency_treatment : Bool
  estimated_processing_days : Option Int
  processed_amount_cents : Option Int
  rejection_reason : Option String
  created_at : Nat
  updated_at : Nat
  deriving DecidableEq, Repr

/-- Structure `ClaimCreate` (models.py lines 150-154): the request body for claim
submission. -/
structure ClaimCreate where
  extracted_data : ExtractedClaimData
  documents : List ClaimDocumentInfo
  additional_notes : Option String
  emergency_treatment : Bool
  deriving DecidableEq, Repr

/-- Structure `ClaimStatusUpdate` (models.py lines 157-162): the request body for a
status update, after pydantic validation has accepted it. -/
structure ClaimStatusUpdate where
  status : ClaimStatus
  notes : Option String
  updated_by_role : UserRole
  estimated_processing_days : Option Int
  deriving DecidableEq, Repr

/-- The pydantic `validate_notes` validator on `ClaimStatusUpdate`
(models.py lines 164-169): rejects the body when the status is Rejected or
PendingDocuments and the notes are falsy (`None` or empty). Returns true
when the body is accepted. -/
def validate_notes (status : ClaimStatus) (notes : Option String) : Bool :=
  if status = ClaimStatus.rejected ∨ status = ClaimStatus.pending_documents then
    strTruthy notes
  else true

/-- The failure modes of a status-update request: pydantic validation
failure, HTTP 404 (claim not found), HTTP 400 (invalid status transition). -/
inductive UpdateError
  | validationError
  | notFound
  | invalidTransition
  deriving DecidableEq, Repr

/-- Constructing a `ClaimStatusUpdate` from a request body runs the
`validate_notes` validator (FastAPI parses and validates the body before
the route handler is entered). -/
def mk_claim_status_update (status : ClaimStatus) (notes : Option String)
    (updated_by_role : UserRole) (estimated_processing_days : Option Int) :
    Except UpdateError ClaimStatusUpdate :=
  if validate_notes status notes then
    Except.ok { status := status, notes := notes,
                updated_by_role := updated_by_role,
                estimated_processing_days := estimated_processing_days }
  else Except.error UpdateError.validationError

/-- Embeds `ClaimService._get_valid_status_transitions` (services.py lines
291-303): the transition table, with `[]` for the two final states. -/
def get_valid_status_transitions (current_status : ClaimStatus) : List ClaimStatus :=
  match current_status with
  | ClaimStatus.submitted =>
      [ClaimStatus.in_review, ClaimStatus.pending_documents, ClaimStatus.rejected]
  | ClaimStatus.in_review =>
      [ClaimStatus.under_investigation, ClaimStatus.approved,
       ClaimStatus.rejected, ClaimStatus.pending_documents]
  | ClaimStatus.under_investigation =>
      [ClaimStatus.approved, ClaimStatus.rejected, ClaimStatus.pending_documents]
  | ClaimStatus.pending_documents =>
      [ClaimStatus.in_review, ClaimStatus.rejected]
  | ClaimStatus.approved => [ClaimStatus.payment_processing]
  | ClaimStatus.payment_processing => [ClaimStatus.completed]
  | ClaimStatus.rejected => []
  | ClaimStatus.completed => []

/-- Embeds `db.claims.find_one` keyed by id: first claim whose id equals `cid`. -/
def find_claim (db : List Claim) (cid : String) : Option Claim :=
  db.find? (fun c => c.id == cid)

/-- Embeds `db.claims.update_one` keyed by id: apply `f` to the first claim
whose id equals `cid`, leaving the rest of the collection unchanged. -/
def update_first_claim (db : List Claim) (cid : String) (f : Claim → Claim) : List Claim :=
  match db with
  | [] => []
  | c :: rest => if c.id == cid then f c :: rest else c :: update_first_claim rest cid f

/-- The document modification performed by `update_claim_status` (services.py
lines 250-274): append the new history entry, set the status and
`updated_at`, set `estimated_processing_days` when the request carries a
truthy value (Python `if status_update.estimated_processing_days:`ignores
`None` and `0`), and store the notes as `rejection_reason` when the target
status is Rejected and the notes are truthy. -/
def apply_status_update (su : ClaimStatusUpdate) (updated_by : String) (now : Nat)
    (c : Claim) : Claim :=
  { c with
    status := su.status
    updated_at := now
    status_history := c.status_history ++
      [{ status := su.status, updated_by := updated_by,
         updated_by_role := su.updated_by_role, updated_at := now,
         notes := su.notes }]
    estimated_processing_days :=
      match su.estimated_processing_days with
      | some d => if d = 0 then c.estimated_processing_days else some d
      | none => c.estimated_processing_days
    rejection_reason :=
      if su.status = ClaimStatus.rejected ∧ strTruthy su.notes then su.notes
      else c.rejection_reason }

/-- Embeds `ClaimService.submit_claim` (services.py lines 137-176): build the claim
in status Submitted with a one-entry history recorded by the patient, and
insert it into the collection. The generated uuid and claim number are
passed in. Returns the claim handed back to the caller together with the
collection after the insert. -/
def submit_claim (db : List Claim) (patient_id : String) (claim_data : ClaimCreate)
    (new_id claim_number : String) (now : Nat) : Claim × List Claim :=
  let entry : ClaimStatusHistory :=
    { status := ClaimStatus.submitted, updated_by := patient_id,
      updated_by_role := UserRole.patient, updated_at := now,
      notes := some "Claim submitted by patient" }
  let claim : Claim :=
    { id := new_id, claim_number := claim_number, patient_id := patient_id,
      extracted_data := claim_data.extracted_data,
      documents := claim_data.documents,
      status := ClaimStatus.submitted, status_history := [entry],
      assigned_insurer := none, assigned_hospital := none,
      additional_notes := claim_data.additional_notes,
      emergency_treatment := claim_data.emergency_treatment,
      estimated_processing_days := some 7, processed_amount_cents := none,
      rejection_reason := none, created_at := now, updated_at := now }
  (claim, db ++ [claim])

/-- Embeds `ClaimService.update_claim_status` (services.py lines 232-289): reload
the claim (404 if absent), reject the transition if the target status is
not in the table for the current status (400), otherwise apply the update
to the stored document and return the freshly reloaded claim together with
the collection after the update. -/
def update_claim_status (db : List Claim) (claim_id : String)
    (status_update : ClaimStatusUpdate) (updated_by : String) (now : Nat) :
    Except UpdateError (Claim × List Claim) :=
  match find_claim db claim_id with
  | none => Except.error UpdateError.notFound
  | some claim =>
    if status_update.status ∈ get_valid_status_transitions claim.status then
      match find_claim (update_first_claim db claim_id
          (apply_status_update status_update updated_by now)) claim_id with
      | some reloaded =>
        Except.ok (reloaded, update_first_claim db claim_id
          (apply_status_update status_update updated_by now))
      | none => Except.error UpdateError.notFound
    else Except.error UpdateError.invalidTransition

/-- A full status-update request as the route handler sees it: pydantic
validation of the body first, then the service call. -/
def update_status_request (db : List Claim) (claim_id : String)
    (target : ClaimStatus) (notes : Option String) (updated_by_role : UserRole)
    (estimated_processing_days : Option Int) (updated_by : String) (now : Nat) :
    Except UpdateError (Claim × List Claim) :=
  match mk_claim_status_update target notes updated_by_role estimated_processing_days with
  | Except.error e => Except.error e
  | Except.ok su => update_claim_status db claim_id su updated_by now

/-- The section-3 data-model invariant: the claim's status field equals the
status of the last history entry (and the history is non-empty). -/
def status_matches_history (c : Claim) : Bool :=
  match c.status_history.getLast? with
  | some e => e.status == c.status
  | none => false

/-- The section-4.3 transition table as written in the spec (From / Allowed
To), stated independently of the code to compare the two. -/
def spec_allowed_next (s : ClaimStatus) : List ClaimStatus :=
  match s with
  | ClaimStatus.submitted =>
      [ClaimStatus.in_review, ClaimStatus.pending_documents, ClaimStatus.rejected]
  | ClaimStatus.in_review =>
      [ClaimStatus.under_investigation, ClaimStatus.approved,
       ClaimStatus.rejected, ClaimStatus.pending_documents]
  | ClaimStatus.under_investigation =>
      [ClaimStatus.approved, ClaimStatus.rejected, ClaimStatus.pending_documents]
  | ClaimStatus.pending_documents =>
      [ClaimStatus.in_review, ClaimStatus.rejected]
  | ClaimStatus.approved => [ClaimStatus.payment_processing]
  | ClaimStatus.payment_processing => [ClaimStatus.completed]
  | ClaimStatus.rejected => []
  | ClaimStatus.completed => []

/-! ## Concrete fixtures (used to evaluate the definitions on closed inputs) -/

/-- Extracted fields of a sample claim (first mock OCR template in
services.py). -/
def testExtracted : ExtractedClaimData :=
  { patient_name := "John Smith", hospital_name := "City General Hospital",
    doctor_name := "Dr. Sarah Johnson", treatment_date := "2024-12-15",
    claim_amount_cents := 250000, diagnosis := "Acute appendicitis",
    treatment_type := "Emergency Surgery" }

/-- A sample claim-submission body. -/
def testCreate : ClaimCreate :=
  { extracted_data := testExtracted, documents := [], additional_notes := none,
    emergency_treatment := false }

/-- A sample claim sitting in InReview, assigned to insurer i1. -/
def testClaim : Claim :=
  { id := "c1", claim_number := "CLM-20241215-AB12CD34", patient_id := "p1",
    extracted_data := testExtracted, documents := [],
    status := ClaimStatus.in_review,
    status_history :=
      [{ status := ClaimStatus.submitted, updated_by := "p1",
         updated_by_role := UserRole.patient, updated_at := 0,
         notes := some "Claim submitted by patient" },
       { status := ClaimStatus.in_review, updated_by := "i1",
         updated_by_role := UserRole.insurer, updated_at := 1, notes := none }],
    assigned_insurer := some "i1", assigned_hospital := none,
    additional_notes := none, emergency_treatment := false,
    estimated_processing_days := some 7, processed_amount_cents := none,
    rejection_reason := none, created_at := 0, updated_at := 1 }

/-- A sample claim already in the terminal Rejected state. -/
def rejectedClaim : Claim :=
  { testClaim with
    id := "c2"
    status := ClaimStatus.rejected
    status_history := testClaim.status_history ++
      [{ status := ClaimStatus.rejected, updated_by := "i1",
         updated_by_role := UserRole.insurer, updated_at := 2,
         notes := some "policy excluded" }]
    rejection_reason := some "policy excluded" }

/-- A sample approval update body from insurer i1. -/
def testApprove : ClaimStatusUpdate :=
  { status := ClaimStatus.approved, notes := some "all documents verified",
    updated_by_role := UserRole.insurer, estimated_processing_days := none }

/-- A sample user whose failed-attempt counter has reached the lockout
threshold. -/
def lockedUser : User :=
  { id := "u1", email := "a@x.com", password_hash := hash_password "goodpw",
    role := UserRole.patient, is_active := true, failed_login_attempts := 5,
    last_login := none, is_verified := true }

/-- A sample active user with a clean failed-attempt counter. -/
def freshUser : User :=
  { lockedUser with id := "u2", email := "b@x.com", failed_login_attempts := 0 }

/-- An update body asking for the invalid transition InReview → Submitted. -/
def badTargetUpdate : ClaimStatusUpdate :=
  { status := ClaimStatus.submitted, notes := none,
    updated_by_role := UserRole.insurer, estimated_processing_days := none }

/-- The stored document after applying `testApprove` to `testClaim`. -/
def approvedTestClaim : Claim :=
  apply_status_update testApprove "i1" 5 testClaim

/-- Non-empty notes accompanying a sample rejection. -/
def rejectionNotes : Option String :=
  some "missing policy documents"

/-- The stored document after rejecting `testClaim` with `rejectionNotes`. -/
def rejectedTestClaim : Claim :=
  apply_status_update
    { status := ClaimStatus.rejected, notes := rejectionNotes,
      updated_by_role := UserRole.insurer, estimated_processing_days := none }
    "i1" 7 testClaim

/-! ## Helper lemmas -/

/-- Looking up the key just updated finds the image of the old document,
provided the modification does not change the id. -/
theorem find_claim_update_first (db : List Claim) (cid : String) (f : Claim → Claim)
    (hf : ∀ c, (f c).id = c.id) :
    find_claim (update_first_claim db cid f) cid = (find_claim db cid).map f := by
  induction db with
  | nil => rfl
  | cons c rest ih =>
    simp only [update_first_claim]
    by_cases h : (c.id == cid) = true
    · rw [if_pos h]
      simp only [find_claim, List.find?]
      rw [show ((f c).id == cid) = true by rw [hf c]; exact h, h]
      rfl
    · rw [if_neg h]
      simp only [find_claim, List.find?] at ih ⊢
      rw [Bool.not_eq_true] at h
      rw [h]
      exact ih

/-- Looking up the email just updated finds the image of the old user,
provided the modification does not change the email. -/
theorem find_user_update_first (db : List User) (e : String) (f : User → User)
    (hf : ∀ u, (f u).email = u.email) :
    find_user (update_first_user db e f) e = (find_user db e).map f := by
  induction db with
  | nil => rfl
  | cons u rest ih =>
    simp only [update_first_user]
    by_cases h : (u.email == e) = true
    · rw [if_pos h]
      simp only [find_user, List.find?]
      rw [show ((f u).email == e) = true by rw [hf u]; exact h, h]
      rfl
    · rw [if_neg h]
      simp only [find_user, List.find?] at ih ⊢
      rw [Bool.not_eq_true] at h
      rw [h]
      exact ih

/-- Every user in an updated collection is either an untouched member of the
old collection or the image of the user the lookup would have found. -/
theorem mem_update_first_user (db : List User) (e : String) (f : User → User)
    (v : User) :
    v ∈ update_first_user db e f →
      v ∈ db ∨ ∃ w, find_user db e = some w ∧ v = f w := by
  induction db with
  | nil => intro hv; simp [update_first_user] at hv
  | cons u rest ih =>
    intro hv
    simp only [update_first_user] at hv
    by_cases h : (u.email == e) = true
    · rw [if_pos h] at hv
      rcases List.mem_cons.mp hv with h1 | h1
      · right
        refine ⟨u, ?_, h1⟩
        simp only [find_user, List.find?]
        rw [h]
      · left
        exact List.mem_cons_of_mem _ h1
    · rw [if_neg h] at hv
      rcases List.mem_cons.mp hv with h1 | h1
      · left
        simp [h1]
      · rcases ih h1 with h2 | ⟨w, hw1, hw2⟩
        · left
          exact List.mem_cons_of_mem _ h2
        · right
          refine ⟨w, ?_, hw2⟩
          simp only [find_user, List.find?]
          rw [Bool.not_eq_true] at h
          rw [h]
          exact hw1

/-- The transition table in the code agrees, state by state, with the table
written in section 4.3 of the spec. -/
theorem transitions_match_spec_table (s : ClaimStatus) :
    get_valid_status_transitions s = spec_allowed_next s := by
  cases s <;> rfl

/-- Characterization of `update_claim_status` on a claim that exists: it
either performs the full document update and returns the reloaded claim, or
rejects the transition. -/
theorem update_claim_status_eq (db : List Claim) (cid : String)
    (su : ClaimStatusUpdate) (b : String) (now : Nat) (claim : Claim)
    (hfind : find_claim db cid = some claim) :
    update_claim_status db cid su b now =
      if su.status ∈ get_valid_status_transitions claim.status then
        Except.ok (apply_status_update su b now claim,
          update_first_claim db cid (apply_status_update su b now))
      else Except.error UpdateError.invalidTransition := by
  unfold update_claim_status
  simp only [hfind]
  by_cases hmem : su.status ∈ get_valid_status_transitions claim.status
  · rw [if_pos hmem, if_pos hmem,
      find_claim_update_first db cid (apply_status_update su b now) (fun c => rfl),
      hfind]
    rfl
  · rw [if_neg hmem, if_neg hmem]

/-- One `authenticate_user` call keeps every failed-attempt counter in the
collection at or below 5: the lockout guard keeps the increment branch from
running on a counter that has already reached 5. -/
theorem auth_step_counter_le (db : List User) (email pw : String) (now : Nat)
    (hdb : ∀ u ∈ db, u.failed_login_attempts ≤ 5) :
    ∀ v ∈ auth_step_db db email pw now, v.failed_login_attempts ≤ 5 := by
  intro v hv
  unfold auth_step_db authenticate_user at hv
  cases hfind : find_user db (lower_str email) with
  | none =>
    simp only [hfind] at hv
    exact hdb v hv
  | some usr =>
    simp only [hfind] at hv
    by_cases h5 : 5 ≤ usr.failed_login_attempts
    · rw [if_pos h5] at hv
      exact hdb v hv
    · rw [if_neg h5] at hv
      by_cases hact : (!usr.is_active) = true
      · rw [if_pos hact] at hv
        exact hdb v hv
      · rw [if_neg hact] at hv
        by_cases hpw : (!verify_password pw usr.password_hash) = true
        · rw [if_pos hpw] at hv
          simp only [] at hv
          rcases mem_update_first_user _ _ _ v hv with h1 | ⟨w, hw1, hw2⟩
          · exact hdb v h1
          · rw [hfind] at hw1
            injection hw1 with hw1
            subst hw1
            subst hw2
            show usr.failed_login_attempts + 1 ≤ 5
            omega
        · rw [if_neg hpw] at hv
          simp only [] at hv
          rcases mem_update_first_user _ _ _ v hv with h1 | ⟨w, hw1, hw2⟩
          · exact hdb v h1
          · subst hw2
            show (0 : Nat) ≤ 5
            omega

/-- A whole sequence of `authenticate_user` calls keeps every failed-attempt
counter at or below 5. -/
theorem run_auth_calls_counter_le (calls : List (String × String × Nat)) :
    ∀ db : List User, (∀ u ∈ db, u.failed_login_attempts ≤ 5) →
      ∀ v ∈ run_auth_calls db calls, v.failed_login_attempts ≤ 5 := by
  induction calls with
  | nil =>
    intro db hdb v hv
    exact hdb v hv
  | cons c rest ih =>
    intro db hdb v hv
    exact ih _ (auth_step_counter_le db c.1 c.2.1 c.2.2 hdb) v hv

/-- Repeated failed logins on a single-user collection: after `n ≤ 5` wrong
attempts the stored counter is exactly `n`. -/
theorem wrong_attempts_eq (u : User) (pw : String) (now : Nat)
    (hlow : lower_str u.email = u.email) (hact : u.is_active = true)
    (hw : verify_password pw u.password_hash = false)
    (h0 : u.failed_login_attempts = 0) :
    ∀ n, n ≤ 5 →
      wrong_attempts u pw now n = [{ u with failed_login_attempts := n }] := by
  intro n
  induction n with
  | zero =>
    intro _
    show [u] = [{ u with failed_login_attempts := 0 }]
    rw [← h0]
  | succ n ih =>
    intro hn
    have hrec := ih (by omega)
    show auth_step_db (wrong_attempts u pw now n) u.email pw now = _
    rw [hrec]
    unfold auth_step_db authenticate_user
    rw [hlow]
    simp only [find_user, List.find?, beq_self_eq_true]
    rw [if_neg (show ¬ 5 ≤ ({ u with failed_login_attempts := n } : User).failed_login_attempts by
      show ¬ 5 ≤ n
      omega)]
    rw [if_neg (show ¬ (!({ u with failed_login_attempts := n } : User).is_active) = true by
      show ¬ (!u.is_active) = true
      rw [hact]
      simp)]
    rw [if_pos (show (!verify_password pw ({ u with failed_login_attempts := n } : User).password_hash) = true by
      show (!verify_password pw u.password_hash) = true
      rw [hw]
      rfl)]
    simp only [update_first_user, beq_self_eq_true, if_pos]

/-! ## The claims -/

/-- Claim C7: for every identity and every claim, `can_view_claim` is true
for an Admin; for a Patient exactly when the identity's id equals the
claim's patient id; for an Insurer exactly when the claim's assigned
insurer is the identity's id; for a Hospital exactly when the claim's
assigned hospital is the identity's id; and no other case returns true
(the four roles are exhaustive). -/
theorem claim7_can_view_claim_table (user : User) (claim_patient_id : String)
    (claim_assigned_insurer claim_assigned_hospital : Option String) :
    can_view_claim user claim_patient_id claim_assigned_insurer claim_assigned_hospital =
      match user.role with
      | UserRole.admin => true
      | UserRole.patient => user.id == claim_patient_id
      | UserRole.insurer => claim_assigned_insurer == some user.id
      | UserRole.hospital => claim_assigned_hospital == some user.id := by
  cases h : user.role <;> simp [can_view_claim, h]

/-- Claim C8: for every identity and current status, `can_update_claim_status`
is true for an Admin; for a Hospital exactly on Submitted and
PendingDocuments; for an Insurer exactly on Submitted, InReview,
UnderInvestigation and PendingDocuments; for a Patient exactly on
PendingDocuments; the four roles are exhaustive, and the function takes no
target status, so its result depends only on the current status. -/
theorem claim8_can_update_status_table (user : User) (current_status : ClaimStatus) :
    can_update_claim_status user current_status =
      match user.role with
      | UserRole.admin => true
      | UserRole.hospital =>
          current_status == ClaimStatus.submitted ||
          current_status == ClaimStatus.pending_documents
      | UserRole.insurer =>
          current_status == ClaimStatus.submitted ||
          current_status == ClaimStatus.in_review ||
          current_status == ClaimStatus.under_investigation ||
          current_status == ClaimStatus.pending_documents
      | UserRole.patient => current_status == ClaimStatus.pending_documents := by
  cases h : user.role <;> cases current_status <;>
    simp [can_update_claim_status, h]

/-- Claim C9: a token issued by `create_access_token` and verified before
its expiry with the correct secret and expected type "access" succeeds and
recovers the subject id, email and role that were put in; verifying the
same access token with expected type "refresh" fails with an Unauthorized
error (detail "Invalid token type"). -/
theorem claim9_token_roundtrip (sub email : String) (role : UserRole)
    (secret : String) (now now2 : Nat)
    (h : now2 ≤ now + access_token_expire_seconds) :
    verify_token (create_access_token sub email role secret now) "access" secret now2 =
      Except.ok { sub := sub, email := email, role := role,
                  exp := now + access_token_expire_seconds, type := "access" }
    ∧ verify_token (create_access_token sub email role secret now) "refresh" secret now2 =
      Except.error TokenError.invalidTokenType := by
  have hexp : ¬ (now + access_token_expire_seconds < now2) := by omega
  constructor
  · unfold verify_token jwt_decode create_access_token
    simp [hexp]
  · unfold verify_token jwt_decode create_access_token
    simp [hexp]

/-- Witness for C9 at a concrete token verified 10 seconds after issue. -/
theorem claim9_witness :
    (10 ≤ 0 + access_token_expire_seconds)
    ∧ verify_token (create_access_token "u1" "a@x.com" UserRole.patient "s3cret" 0)
        "access" "s3cret" 10 =
      Except.ok { sub := "u1", email := "a@x.com", role := UserRole.patient,
                  exp := 0 + access_token_expire_seconds, type := "access" }
    ∧ verify_token (create_access_token "u1" "a@x.com" UserRole.patient "s3cret" 0)
        "refresh" "s3cret" 10 =
      Except.error TokenError.invalidTokenType :=
  ⟨by decide,
   (claim9_token_roundtrip "u1" "a@x.com" UserRole.patient "s3cret" 0 10 (by decide)).1,
   (claim9_token_roundtrip "u1" "a@x.com" UserRole.patient "s3cret" 0 10 (by decide)).2⟩

/-- Claim C10: if every stored failed-login counter is at most 5, then no
sequence of `authenticate_user` calls ever raises a counter above 5: the
lockout check fails a call with counter 5 before the wrong-password branch
that increments the counter can run. -/
theorem claim10_failed_attempts_bounded (db : List User)
    (calls : List (String × String × Nat))
    (hdb : ∀ u ∈ db, u.failed_login_attempts ≤ 5) :
    ∀ v ∈ run_auth_calls db calls, v.failed_login_attempts ≤ 5 :=
  run_auth_calls_counter_le calls db hdb

/-- Witness for C10: two wrong-password calls on a fresh user keep the
counter at or below 5. -/
theorem claim10_witness :
    (∀ u ∈ [freshUser], u.failed_login_attempts ≤ 5)
    ∧ ∀ v ∈ run_auth_calls [freshUser]
        [("b@x.com", "badpw", 0), ("b@x.com", "badpw", 1)],
        v.failed_login_attempts ≤ 5 :=
  ⟨by decide,
   claim10_failed_attempts_bounded [freshUser]
     [("b@x.com", "badpw", 0), ("b@x.com", "badpw", 1)] (by decide)⟩

/-- Claim C5: when the failed-login counter of the looked-up identity has
reached 5, `authenticate_user` fails with AccountLocked for every supplied
password (the lockout guard runs before the password comparison); in
particular, starting from a clean counter, 5 consecutive wrong passwords
followed by a 6th attempt with any password — the correct one included —
still fail with AccountLocked. -/
theorem claim5_locked_before_password_check (db : List User) (email pw : String)
    (now : Nat) (u : User)
    (hfind : find_user db (lower_str email) = some u)
    (h5 : 5 ≤ u.failed_login_attempts) :
    authenticate_user db email pw now = Except.error AuthError.accountLocked
    ∧ ∀ (v : User) (wrongpw rightpw : String) (now2 : Nat),
        lower_str v.email = v.email → v.is_active = true →
        v.failed_login_attempts = 0 →
        verify_password wrongpw v.password_hash = false →
        authenticate_user (wrong_attempts v wrongpw now2 5) v.email rightpw now2 =
          Except.error AuthError.accountLocked := by
  have main : ∀ (db2 : List User) (e2 p2 : String) (n2 : Nat) (u2 : User),
      find_user db2 (lower_str e2) = some u2 → 5 ≤ u2.failed_login_attempts →
      authenticate_user db2 e2 p2 n2 = Except.error AuthError.accountLocked := by
    intro db2 e2 p2 n2 u2 hf h
    unfold authenticate_user
    simp only [hf]
    rw [if_pos h]
  constructor
  · exact main db email pw now u hfind h5
  · intro v wrongpw rightpw now2 hlow hact h0 hw
    rw [wrong_attempts_eq v wrongpw now2 hlow hact hw h0 5 (by omega)]
    apply main _ _ _ _ { v with failed_login_attempts := 5 }
    · rw [hlow]
      simp [find_user, List.find?, beq_self_eq_true]
    · show 5 ≤ 5
      omega

/-- Witness for C5: a user locked at counter 5 fails even with the correct
password, and a fresh user locked out by 5 wrong attempts fails the 6th
attempt with the correct password. -/
theorem claim5_witness :
    (find_user [lockedUser] (lower_str "a@x.com") = some lockedUser
      ∧ 5 ≤ lockedUser.failed_login_attempts)
    ∧ authenticate_user [lockedUser] "a@x.com" "goodpw" 0 =
        Except.error AuthError.accountLocked
    ∧ authenticate_user (wrong_attempts freshUser "badpw" 0 5) freshUser.email
        "goodpw" 0 = Except.error AuthError.accountLocked :=
  ⟨⟨by decide, by decide⟩,
   (claim5_locked_before_password_check [lockedUser] "a@x.com" "goodpw" 0
      lockedUser (by decide) (by decide)).1,
   (claim5_locked_before_password_check [lockedUser] "a@x.com" "goodpw" 0
      lockedUser (by decide) (by decide)).2 freshUser "badpw" "goodpw" 0
     (by decide) (by decide) (by decide) (by decide)⟩

/-- Claim C6: for a non-locked (counter below 5), active identity, a wrong
password makes `authenticate_user` return the soft "no match" result and
increments that identity's failed-login counter by one, while the correct
password returns the identity, resets the counter to zero and stamps the
last-login time. -/
theorem claim6_password_branches (db : List User) (email pw : String)
    (now : Nat) (u : User)
    (hfind : find_user db (lower_str email) = some u)
    (h5 : u.failed_login_attempts < 5)
    (hact : u.is_active = true) :
    (verify_password pw u.password_hash = false →
      authenticate_user db email pw now =
        Except.ok (none, update_first_user db (lower_str email)
          (fun w => { w with failed_login_attempts := w.failed_login_attempts + 1 }))
      ∧ find_user (update_first_user db (lower_str email)
          (fun w => { w with failed_login_attempts := w.failed_login_attempts + 1 }))
          (lower_str email) =
        some { u with failed_login_attempts := u.failed_login_attempts + 1 })
    ∧ (verify_password pw u.password_hash = true →
      authenticate_user db email pw now =
        Except.ok (some u, update_first_user db (lower_str email)
          (fun w => { w with last_login := some now, failed_login_attempts := 0 }))
      ∧ find_user (update_first_user db (lower_str email)
          (fun w => { w with last_login := some now, failed_login_attempts := 0 }))
          (lower_str email) =
        some { u with last_login := some now, failed_login_attempts := 0 }) := by
  constructor
  · intro hw
    constructor
    · unfold authenticate_user
      simp only [hfind]
      rw [if_neg (by omega), if_neg (by rw [hact]; simp),
        if_pos (by rw [hw]; rfl)]
    · rw [find_user_update_first db (lower_str email)
        (fun w => { w with failed_login_attempts := w.failed_login_attempts + 1 })
        (fun w => rfl), hfind]
      rfl
  · intro hw
    constructor
    · unfold authenticate_user
      simp only [hfind]
      rw [if_neg (by omega), if_neg (by rw [hact]; simp),
        if_neg (by rw [hw]; simp)]
    · rw [find_user_update_first db (lower_str email)
        (fun w => { w with last_login := some now, failed_login_attempts := 0 })
        (fun w => rfl), hfind]
      rfl

/-- Witness for C6: both password branches evaluated on a concrete fresh
user, showing the counter increment on a wrong password and the reset plus
last-login stamp on the correct one. -/
theorem claim6_witness :
    (find_user [freshUser] (lower_str "b@x.com") = some freshUser
      ∧ freshUser.failed_login_attempts < 5
      ∧ freshUser.is_active = true
      ∧ verify_password "badpw" freshUser.password_hash = false
      ∧ verify_password "goodpw" freshUser.password_hash = true)
    ∧ (authenticate_user [freshUser] "b@x.com" "badpw" 3 =
        Except.ok (none, update_first_user [freshUser] (lower_str "b@x.com")
          (fun w => { w with failed_login_attempts := w.failed_login_attempts + 1 }))
      ∧ find_user (update_first_user [freshUser] (lower_str "b@x.com")
          (fun w => { w with failed_login_attempts := w.failed_login_attempts + 1 }))
          (lower_str "b@x.com") =
        some { freshUser with failed_login_attempts := freshUser.failed_login_attempts + 1 })
    ∧ (authenticate_user [freshUser] "b@x.com" "goodpw" 3 =
        Except.ok (some freshUser, update_first_user [freshUser] (lower_str "b@x.com")
          (fun w => { w with last_login := some 3, failed_login_attempts := 0 }))
      ∧ find_user (update_first_user [freshUser] (lower_str "b@x.com")
          (fun w => { w with last_login := some 3, failed_login_attempts := 0 }))
          (lower_str "b@x.com") =
        some { freshUser with last_login := some 3, failed_login_attempts := 0 }) :=
  ⟨⟨by decide, by decide, by decide, by decide, by decide⟩,
   (claim6_password_branches [freshUser] "b@x.com" "badpw" 3 freshUser
      (by decide) (by decide) (by decide)).1 (by decide),
   (claim6_password_branches [freshUser] "b@x.com" "goodpw" 3 freshUser
      (by decide) (by decide) (by decide)).2 (by decide)⟩

/-- A status-update request whose body passes the `validate_notes`
validator reduces to the service call on the constructed body. -/
theorem update_status_request_eq_of_valid (db : List Claim) (cid : String)
    (target : ClaimStatus) (notes : Option String) (role : UserRole)
    (days : Option Int) (b : String) (now : Nat)
    (hval : validate_notes target notes = true) :
    update_status_request db cid target notes role days b now =
      update_claim_status db cid
        { status := target, notes := notes, updated_by_role := role,
          estimated_processing_days := days } b now := by
  unfold update_status_request mk_claim_status_update
  rw [if_pos hval]

/-- A status-update request whose body fails the `validate_notes` validator
is rejected before the service runs. -/
theorem update_status_request_eq_invalid (db : List Claim) (cid : String)
    (target : ClaimStatus) (notes : Option String) (role : UserRole)
    (days : Option Int) (b : String) (now : Nat)
    (hval : validate_notes target notes = false) :
    update_status_request db cid target notes role days b now =
      Except.error UpdateError.validationError := by
  unfold update_status_request mk_claim_status_update
  rw [if_neg (by rw [hval]; simp)]

/-- Claim C1: on an existing claim, `update_claim_status` fails with
InvalidTransition exactly when the target status is not in the allowed-to
set that the section-4.3 table gives for the claim's current status; in
particular every update on a claim in Rejected or Completed fails with
InvalidTransition, as those rows of the table are empty. -/
theorem claim1_transition_table (db : List Claim) (cid : String)
    (su : ClaimStatusUpdate) (b : String) (now : Nat) (claim : Claim)
    (hfind : find_claim db cid = some claim) :
    (update_claim_status db cid su b now =
        Except.error UpdateError.invalidTransition
      ↔ su.status ∉ spec_allowed_next claim.status)
    ∧ ((claim.status = ClaimStatus.rejected ∨ claim.status = ClaimStatus.completed) →
        update_claim_status db cid su b now =
          Except.error UpdateError.invalidTransition) := by
  rw [update_claim_status_eq db cid su b now claim hfind,
    transitions_match_spec_table claim.status]
  constructor
  · by_cases hmem : su.status ∈ spec_allowed_next claim.status
    · rw [if_pos hmem]
      simp [hmem]
    · rw [if_neg hmem]
      simp [hmem]
  · intro hterm
    have hempty : spec_allowed_next claim.status = [] := by
      rcases hterm with h | h <;> rw [h] <;> rfl
    rw [if_neg (by rw [hempty]; simp)]

/-- Witness for C1: InReview → Submitted is refused as not in the table,
and a claim already in the terminal Rejected state refuses an approval. -/
theorem claim1_witness :
    (find_claim [testClaim] "c1" = some testClaim
      ∧ find_claim [rejectedClaim] "c2" = some rejectedClaim
      ∧ (rejectedClaim.status = ClaimStatus.rejected ∨
          rejectedClaim.status = ClaimStatus.completed))
    ∧ (update_claim_status [testClaim] "c1" badTargetUpdate "i1" 5 =
          Except.error UpdateError.invalidTransition
        ↔ badTargetUpdate.status ∉ spec_allowed_next testClaim.status)
    ∧ update_claim_status [rejectedClaim] "c2" testApprove "i1" 5 =
        Except.error UpdateError.invalidTransition :=
  ⟨⟨by decide, by decide, Or.inl rfl⟩,
   (claim1_transition_table [testClaim] "c1" badTargetUpdate "i1" 5 testClaim
      (by decide)).1,
   (claim1_transition_table [rejectedClaim] "c2" testApprove "i1" 5 rejectedClaim
      (by decide)).2 (Or.inl rfl)⟩

/-- Claim C2: a claim produced by `submit_claim` satisfies the invariant
that its status equals the status of the last entry of its non-empty
history, and a successful `update_claim_status` preserves it while only
appending one entry to the existing history (never removing or reordering
entries). -/
theorem claim2_status_matches_last_history (db : List Claim) (pid : String)
    (cd : ClaimCreate) (nid cnum : String) (now : Nat) (cid : String)
    (su : ClaimStatusUpdate) (b : String) (now2 : Nat) (claim c2 : Claim)
    (db2 : List Claim)
    (hfind : find_claim db cid = some claim)
    (hok : update_claim_status db cid su b now2 = Except.ok (c2, db2)) :
    status_matches_history (submit_claim db pid cd nid cnum now).1 = true
    ∧ status_matches_history c2 = true
    ∧ c2.status_history = claim.status_history ++
        [{ status := su.status, updated_by := b,
           updated_by_role := su.updated_by_role, updated_at := now2,
           notes := su.notes }] := by
  refine ⟨rfl, ?_⟩
  rw [update_claim_status_eq db cid su b now2 claim hfind] at hok
  by_cases hmem : su.status ∈ get_valid_status_transitions claim.status
  · rw [if_pos hmem] at hok
    injection hok with h
    injection h with h1 h2
    subst h1
    constructor
    · simp only [status_matches_history, apply_status_update]
      rw [List.getLast?_concat]
      simp
    · rfl
  · rw [if_neg hmem] at hok
    simp at hok

/-- Witness for C2: submitting a fresh claim and approving `testClaim`
both leave the status equal to the last history entry, and the approval
appends exactly one entry. -/
theorem claim2_witness :
    (find_claim [testClaim] "c1" = some testClaim
      ∧ update_claim_status [testClaim] "c1" testApprove "i1" 5 =
          Except.ok (approvedTestClaim, [approvedTestClaim]))
    ∧ status_matches_history
        (submit_claim [] "p1" testCreate "c9" "CLM-20250101-00000000" 0).1 = true
    ∧ status_matches_history approvedTestClaim = true
    ∧ approvedTestClaim.status_history = testClaim.status_history ++
        [{ status := testApprove.status, updated_by := "i1",
           updated_by_role := testApprove.updated_by_role, updated_at := 5,
           notes := testApprove.notes }] :=
  ⟨⟨by decide, by rfl⟩,
   claim2_status_matches_last_history [testClaim] "p1" testCreate "c9"
     "CLM-20250101-00000000" 0 "c1" testApprove "i1" 5 testClaim
     approvedTestClaim [approvedTestClaim] (by decide) (by rfl)⟩

/-- Claim C3: a successful status-update request returns the claim as
freshly reloaded from the store after the update; its status is the target
status, its history is the old history plus exactly one new entry carrying
the target status, actor id, actor role and notes, and when the target is
Rejected the stored rejection reason equals the supplied notes. -/
theorem claim3_returns_reloaded_claim (db : List Claim) (cid : String)
    (target : ClaimStatus) (notes : Option String) (role : UserRole)
    (days : Option Int) (b : String) (now : Nat) (claim c2 : Claim)
    (db2 : List Claim)
    (hfind : find_claim db cid = some claim)
    (hok : update_status_request db cid target notes role days b now =
      Except.ok (c2, db2)) :
    find_claim db2 cid = some c2
    ∧ c2.status = target
    ∧ c2.status_history = claim.status_history ++
        [{ status := target, updated_by := b, updated_by_role := role,
           updated_at := now, notes := notes }]
    ∧ c2.status_history.length = claim.status_history.length + 1
    ∧ (target = ClaimStatus.rejected → c2.rejection_reason = notes) := by
  by_cases hval : validate_notes target notes = true
  · rw [update_status_request_eq_of_valid db cid target notes role days b now hval,
      update_claim_status_eq db cid _ b now claim hfind] at hok
    dsimp only at hok
    by_cases hmem : target ∈ get_valid_status_transitions claim.status
    · rw [if_pos hmem] at hok
      injection hok with h
      injection h with h1 h2
      subst h1
      subst h2
      refine ⟨?_, rfl, rfl, by simp [apply_status_update], ?_⟩
      · rw [find_claim_update_first db cid
          (apply_status_update ⟨target, notes, role, days⟩ b now)
          (fun c => rfl), hfind]
        rfl
      · intro hrej
        subst hrej
        have hnotes : strTruthy notes = true := by
          unfold validate_notes at hval
          simpa using hval
        simp [apply_status_update, hnotes]
    · rw [if_neg hmem] at hok
      simp at hok
  · rw [Bool.not_eq_true] at hval
    rw [update_status_request_eq_invalid db cid target notes role days b now hval] at hok
    simp at hok

/-- Witness for C3: rejecting `testClaim` with non-empty notes returns the
reloaded document with the appended history entry and the notes stored as
the rejection reason. -/
theorem claim3_witness :
    (find_claim [testClaim] "c1" = some testClaim
      ∧ update_status_request [testClaim] "c1" ClaimStatus.rejected rejectionNotes
          UserRole.insurer none "i1" 7 =
        Except.ok (rejectedTestClaim, [rejectedTestClaim]))
    ∧ find_claim [rejectedTestClaim] "c1" = some rejectedTestClaim
    ∧ rejectedTestClaim.status = ClaimStatus.rejected
    ∧ rejectedTestClaim.status_history = testClaim.status_history ++
        [{ status := ClaimStatus.rejected, updated_by := "i1",
           updated_by_role := UserRole.insurer, updated_at := 7,
           notes := rejectionNotes }]
    ∧ rejectedTestClaim.status_history.length = testClaim.status_history.length + 1
    ∧ (ClaimStatus.rejected = ClaimStatus.rejected →
        rejectedTestClaim.rejection_reason = rejectionNotes) :=
  ⟨⟨by decide, by rfl⟩,
   claim3_returns_reloaded_claim [testClaim] "c1" ClaimStatus.rejected
     rejectionNotes UserRole.insurer none "i1" 7 testClaim rejectedTestClaim
     [rejectedTestClaim] (by decide) (by rfl)⟩

/-- Claim C4: a status-update request whose target is Rejected or
PendingDocuments with absent or empty notes fails with ValidationError
(before the store is even consulted), and with non-empty notes and a
transition allowed by the section-4.3 table on an existing claim the
request succeeds. -/
theorem claim4_notes_required (db : List Claim) (cid : String)
    (target : ClaimStatus) (notes : Option String) (role : UserRole)
    (days : Option Int) (b : String) (now : Nat) :
    ((target = ClaimStatus.rejected ∨ target = ClaimStatus.pending_documents) →
      (notes = none ∨ notes = some "") →
      update_status_request db cid target notes role days b now =
        Except.error UpdateError.validationError)
    ∧ (∀ (n : String) (claim : Claim), notes = some n → n ≠ "" →
        find_claim db cid = some claim →
        target ∈ spec_allowed_next claim.status →
        ∃ c2 db2, update_status_request db cid target notes role days b now =
          Except.ok (c2, db2)) := by
  constructor
  · intro ht hn
    have hval : validate_notes target notes = false := by
      unfold validate_notes
      rw [if_pos ht]
      rcases hn with h | h <;> subst h <;> rfl
    rw [update_status_request_eq_invalid db cid target notes role days b now hval]
  · intro n claim hn hne hfind hmem
    subst hn
    have hval : validate_notes target (some n) = true := by
      unfold validate_notes
      split
      · show (!n.isEmpty) = true
        have hie : n.isEmpty = false := by
          rw [Bool.eq_false_iff]
          intro he
          exact hne ((String.isEmpty_iff n).mp he)
        rw [hie]
        rfl
      · rfl
    rw [update_status_request_eq_of_valid db cid target (some n) role days b now hval,
      update_claim_status_eq db cid _ b now claim hfind,
      if_pos (by rw [transitions_match_spec_table]; exact hmem)]
    exact ⟨_, _, rfl⟩

/-- Witness for C4: rejecting without notes fails validation; rejecting
the same claim with non-empty notes succeeds. -/
theorem claim4_witness :
    ((ClaimStatus.rejected = ClaimStatus.rejected ∨
        ClaimStatus.rejected = ClaimStatus.pending_documents)
      ∧ ((none : Option String) = none ∨ (none : Option String) = some "")
      ∧ rejectionNotes = some "missing policy documents"
      ∧ "missing policy documents" ≠ ""
      ∧ find_claim [testClaim] "c1" = some testClaim
      ∧ ClaimStatus.rejected ∈ spec_allowed_next testClaim.status)
    ∧ update_status_request [testClaim] "c1" ClaimStatus.rejected none
        UserRole.insurer none "i1" 7 = Except.error UpdateError.validationError
    ∧ ∃ c2 db2, update_status_request [testClaim] "c1" ClaimStatus.rejected
        rejectionNotes UserRole.insurer none "i1" 7 = Except.ok (c2, db2) :=
  ⟨⟨Or.inl rfl, Or.inl rfl, by decide, by decide, by decide, by decide⟩,
   (claim4_notes_required [testClaim] "c1" ClaimStatus.rejected none
      UserRole.insurer none "i1" 7).1 (Or.inl rfl) (Or.inl rfl),
   (claim4_notes_required [testClaim] "c1" ClaimStatus.rejected rejectionNotes
      UserRole.insurer none "i1" 7).2 "missing policy documents" testClaim
     (by decide) (by decide) (by decide) (by decide)⟩

end ClaimPortal
